import Mathlib

/-!
Shallow embedding of the installer-resolution and lifecycle-orchestration core
of the sherpa dotfiles manager, together with theorems settling the frozen
claims about it.

The embedded code:
  - src/packages/base.py      (BaseInstaller: constructor, config lifecycle)
  - src/packages/factory.py   (PackageMetadata, InstallerFactory)
  - src/sherpa.py             (handle_install / handle_remove orchestration)
  - the eighteen concrete installer classes under src/packages/

Python effects are made explicit: a raised exception is an Except.error, the
Python value None returned by a bare return statement is Option.none, and the
host system (which executables are on PATH, what the filesystem holds, what a
spawned command returns) is passed in as explicit environment records.
-/

namespace Sherpa

/-- The Python exception kinds raised by the embedded code. -/
inductive PyExc where
  | typeError (msg : String)
  | attributeError (attr : String)
  | valueError (msg : String)
  | runtimeError (msg : String)
  | importError (msg : String)
  | fileNotFoundError (msg : String)
  deriving Repr, DecidableEq

/-- A filesystem path, as a list of segments (pathlib.Path). -/
abbrev FsPath := List String

/-! ## Sorting package ids (Python sorted() on strings) -/

/-- Byte-order comparison of characters, as Python compares code points. -/
def charLt (a b : Char) : Bool := a.val < b.val

/-- Lexicographic strict order on character lists. -/
def strLtAux : List Char → List Char → Bool
  | [], [] => false
  | [], _ :: _ => true
  | _ :: _, [] => false
  | a :: as, b :: bs => if charLt a b then true else if charLt b a then false else strLtAux as bs

/-- Total lexicographic order on strings, the order Python sorted() uses. -/
def strLe (a b : String) : Bool := !(strLtAux b.data a.data)

/-- Python sorted() over a list of strings. -/
def sortIds (l : List String) : List String := l.insertionSort (fun a b => strLe a b = true)

/-! ## PackageMetadata (factory.py lines 10-69) -/

/-- The value of a non-empty "supports" entry of package.meta.json:
    allow-lists for os and arch (each defaulting to the empty list). -/
structure SupportsSpec where
  os : List String
  arch : List String
  deriving Repr, DecidableEq

/-- The concrete installer classes defined under src/packages/. -/
inductive InstallerClass where
  | AptInstaller | AsdfInstaller | BrewInstaller | DnfInstaller
  | HomeManagerInstaller | MiseInstaller | NixInstaller | NvmInstaller
  | PacmanInstaller | RbenvInstaller | SdkmanInstaller
  | TmuxInstaller | StarshipInstaller | PyenvInstaller
  | LazyGitInstaller | NushellInstaller | GhosttyInstaller | NeovimInstaller
  deriving Repr, DecidableEq

/-- The fields of PackageMetadata the claims depend on. The installer_class
    string of package.meta.json is embedded as the resolved class it names,
    since dynamic resolution by name succeeds for every class in the tree.
    supports = none models the empty-dict default metadata_dict.get("supports", \x7b\x7d),
    which Python treats as falsy. -/
structure PackageMetadata where
  id : String
  category : String
  installer_class : InstallerClass
  requires : List String
  conflicts : List String
  supports : Option SupportsSpec
  deriving Repr, DecidableEq

/-! ## Platform normalization (factory.py lines 41-63) -/

/-- The running platform as Python reports it: platform.system().lower()
    and platform.machine().lower(). -/
structure Platform where
  os : String
  arch : String
  deriving Repr, DecidableEq

/-- os_map.get(current_os, current_os): the dict literal
    with keys darwin, linux, windows, defaulting to the key itself. -/
def osMapGet (s : String) : String :=
  if s = "darwin" then "macos"
  else if s = "linux" then "linux"
  else if s = "windows" then "windows"
  else s

/-- arch_map.get(current_arch, current_arch): the dict literal with keys
    arm64, aarch64, x86_64, amd64, defaulting to the key itself. -/
def archMapGet (s : String) : String :=
  if s = "arm64" then "arm64"
  else if s = "aarch64" then "arm64"
  else if s = "x86_64" then "x86_64"
  else if s = "amd64" then "x86_64"
  else s

/-- PackageMetadata.is_supported_on_current_platform: true when supports is
    the falsy empty dict; otherwise both the os allow-list and the arch
    allow-list must be empty or contain the normalized current value. -/
def PackageMetadata.is_supported_on_current_platform
    (md : PackageMetadata) (pf : Platform) : Bool :=
  match md.supports with
  | none => true
  | some sup =>
    let currentOS := osMapGet pf.os
    let currentArch := archMapGet pf.arch
    (sup.os.isEmpty || sup.os.contains currentOS) &&
    (sup.arch.isEmpty || sup.arch.contains currentArch)

/-! ## BaseInstaller construction (base.py lines 15-28) -/

/-- Which of the directories BaseInstaller.__init__ validates exist on disk. -/
structure DirsOnDisk where
  packageDirExists : Bool
  configDirExists : Bool
  deriving Repr, DecidableEq

/-- The attributes a constructed installer instance carries. home_dir is an
    Option because no constructor in the source ever assigns that attribute:
    none models the attribute being absent, so that reading it raises
    AttributeError. -/
structure InstallerAttrs where
  package_name : String
  package_dir : FsPath
  config_dir : FsPath
  binary_name : Option String
  home_dir : Option FsPath
  deriving Repr, DecidableEq

/-- BaseInstaller.__init__(self, package_name): sets package_name,
    package_dir = Path("packages")/package_name, config_dir = package_dir/"config",
    raising FileNotFoundError when either directory is missing. It assigns no
    home_dir attribute (and no binary_name). -/
def baseInit (package_name : String) (dirs : DirsOnDisk) : Except PyExc InstallerAttrs :=
  if !dirs.packageDirExists then
    .error (.fileNotFoundError ("Package directory not found: packages/" ++ package_name))
  else if !dirs.configDirExists then
    .error (.fileNotFoundError ("Config directory not found: packages/" ++ package_name ++ "/config"))
  else
    .ok { package_name := package_name
        , package_dir := ["packages", package_name]
        , config_dir := ["packages", package_name, "config"]
        , binary_name := none
        , home_dir := none }

/-- BaseInstaller.__init__ invoked with a list of positional arguments (after
    self). Its signature takes exactly one, so any other arity raises
    TypeError before the body runs. -/
def baseInitArgs (args : List String) (dirs : DirsOnDisk) : Except PyExc InstallerAttrs :=
  match args with
  | [p] => baseInit p dirs
  | _ => .error (.typeError "BaseInstaller.__init__() takes 2 positional arguments but more were given")

/-- The shape of each concrete class's __init__ in the source tree. -/
inductive InitStyle where
  /-- No own __init__: the class inherits BaseInstaller's one-argument signature. -/
  | inherited
  /-- def __init__(self, package_name): super().__init__(package_name) then
      self.binary_name = b (pyenv also sets pyenv_root, irrelevant here). -/
  | ownOneArg (b : String)
  /-- def __init__(self, package_name, category=None):
      super().__init__(package_name, category) then self.binary_name = b.
      The super call forwards two positional arguments to the base. -/
  | ownTwoArgForward (b : String)
  deriving Repr, DecidableEq

/-- The __init__ shape of every class in the source tree, read off the
    eighteen installer.py files. -/
def initStyle : InstallerClass → InitStyle
  | .AptInstaller => .inherited
  | .AsdfInstaller => .inherited
  | .BrewInstaller => .inherited
  | .DnfInstaller => .inherited
  | .HomeManagerInstaller => .inherited
  | .MiseInstaller => .inherited
  | .NixInstaller => .inherited
  | .NvmInstaller => .inherited
  | .PacmanInstaller => .inherited
  | .RbenvInstaller => .inherited
  | .SdkmanInstaller => .inherited
  | .TmuxInstaller => .ownOneArg "tmux"
  | .StarshipInstaller => .ownOneArg "starship"
  | .PyenvInstaller => .ownOneArg "pyenv"
  | .LazyGitInstaller => .ownTwoArgForward "lazygit"
  | .NushellInstaller => .ownTwoArgForward "nu"
  | .GhosttyInstaller => .ownTwoArgForward "ghostty"
  | .NeovimInstaller => .ownTwoArgForward "nvim"

/-- Assignment self.binary_name = b performed after the super().__init__ call. -/
def setBinary (b : String) (a : InstallerAttrs) : InstallerAttrs :=
  { a with binary_name := some b }

/-- Constructing an instance of a concrete class with a list of positional
    arguments, following each class's __init__ shape. A two-argument call on a
    one-argument signature, and a super().__init__(package_name, category)
    forward into the one-argument base signature, both raise TypeError. -/
def constructInstaller (cls : InstallerClass) (args : List String)
    (dirs : DirsOnDisk) : Except PyExc InstallerAttrs :=
  match initStyle cls with
  | .inherited => baseInitArgs args dirs
  | .ownOneArg b =>
    match args with
    | [p] => (baseInitArgs [p] dirs).map (setBinary b)
    | _ => .error (.typeError "__init__() takes 2 positional arguments but more were given")
  | .ownTwoArgForward b =>
    match args with
    -- category defaults to None, but the super call still forwards two
    -- positional arguments, which the one-parameter base signature rejects
    | [p] => (baseInitArgs [p, "None"] dirs).map (setBinary b)
    | [p, c] => (baseInitArgs [p, c] dirs).map (setBinary b)
    | _ => .error (.typeError "__init__() takes at most 3 positional arguments")

/-! ## Registry and factory (factory.py lines 95-207) -/

/-- The discovered registry: package id to its metadata. The source entry also
    stores copies of category and class_name, read here off the metadata. -/
abbrev Registry := List (String × PackageMetadata)

/-- The ids in the registry, in discovery order. -/
def registryIds (reg : Registry) : List String := reg.map Prod.fst

/-- The ValueError message raised for an unknown package id
    (factory.py lines 170-174): it interpolates the comma-joined sorted
    registry keys. -/
def notFoundMsg (pid : String) (ids : List String) : String :=
  "Package '" ++ pid ++ "' not found. Available: " ++ String.intercalate ", " (sortIds ids)

/-- InstallerFactory.create_installer: look the id up in the discovered
    registry, raising ValueError with the catalog listing when absent;
    otherwise check platform support (a warning only, never fatal), import the
    installer class (which succeeds for every class in the source tree) and
    instantiate it with the two positional arguments (package_id, category).
    The except clauses re-wrap ImportError and AttributeError, and wrap every
    other exception as RuntimeError. -/
def create_installer (reg : Registry) (dirs : DirsOnDisk) (pid : String) :
    Except PyExc InstallerAttrs :=
  match reg.lookup pid with
  | none => .error (.valueError (notFoundMsg pid (registryIds reg)))
  | some md =>
    match constructInstaller md.installer_class [pid, md.category] dirs with
    | .ok inst => .ok inst
    | .error (.importError m) =>
        .error (.importError ("Cannot import installer for '" ++ pid ++ "': " ++ m))
    | .error (.attributeError m) =>
        .error (.attributeError ("Installer class not found for '" ++ pid ++ "': " ++ m))
    | .error _ =>
        .error (.runtimeError ("Unexpected error creating installer for '" ++ pid ++ "'"))

/-! ## Config lifecycle (base.py lines 71-109 and 178-223) -/

/-- The state of the config subtree and of the home-directory targets the
    stow check inspects. files lists the relative paths of the regular files
    config_dir.rglob("*") yields, in order; the three predicates give, for a
    relative path, whether home_dir/rel exists, is a symlink, and resolves to
    the corresponding source file. -/
structure ConfigFS where
  files : List FsPath
  targetExists : FsPath → Bool
  targetIsSymlink : FsPath → Bool
  targetResolvesToSource : FsPath → Bool

/-- The loop of BaseInstaller._is_config_installed: for each file under the
    config subtree, the body reads self.home_dir to build the target path;
    when the attribute was never assigned this read raises AttributeError on
    the first file. With the attribute present it returns true at the first
    target that exists, is a symlink and resolves back to the source. -/
def isConfigLoop (home : Option FsPath) (fs : ConfigFS) : List FsPath → Except PyExc Bool
  | [] => .ok false
  | rel :: rest =>
    match home with
    | none => .error (.attributeError "home_dir")
    | some _ =>
      if fs.targetExists rel && fs.targetIsSymlink rel && fs.targetResolvesToSource rel then
        .ok true
      else
        isConfigLoop home fs rest

/-- BaseInstaller._is_config_installed (base.py lines 211-223). -/
def isConfigInstalledImpl (a : InstallerAttrs) (fs : ConfigFS) : Except PyExc Bool :=
  isConfigLoop a.home_dir fs fs.files

/-- BaseInstaller.is_config_installed delegates to the private check. -/
def is_config_installed (a : InstallerAttrs) (fs : ConfigFS) : Except PyExc Bool :=
  isConfigInstalledImpl a fs

/-- The dict BaseInstaller.get_status returns. -/
structure Status where
  package : String
  software_installed : Bool
  config_installed : Bool
  deriving Repr, DecidableEq

/-- BaseInstaller.get_status (base.py lines 103-109): a read-only composite of
    the subclass's software check (passed in, since it is abstract) and the
    shared config check; an exception from the latter propagates. -/
def get_status (a : InstallerAttrs) (fs : ConfigFS) (softwareInstalled : Bool) :
    Except PyExc Status := do
  let c ← is_config_installed a fs
  .ok { package := a.package_name
      , software_installed := softwareInstalled
      , config_installed := c }

/-- The host facts _ensure_stow_available and install_config consult:
    whether stow is on PATH, what _get_package_manager resolves, and how the
    spawned commands behave. -/
structure StowEnv where
  stowOnPath : Bool
  packageManager : Option (String × String)
  installCommandRaises : Bool
  stowOnPathAfterInstall : Bool
  stowCommandRaises : Bool
  stowReturncode : Int
  deriving Repr, DecidableEq

/-- BaseInstaller._ensure_stow_available (base.py lines 178-209): true when
    stow is already on PATH; otherwise resolve a package manager (none found
    means false), run its install command (an exception is caught and yields
    false) and re-check PATH. -/
def ensureStowAvailable (env : StowEnv) : Bool :=
  if env.stowOnPath then true
  else
    match env.packageManager with
    | none => false
    | some _ =>
      if env.installCommandRaises then false
      else env.stowOnPathAfterInstall

/-- BaseInstaller.install_config (base.py lines 71-93). When the stow check
    fails the body executes a bare return statement, so the Python value None
    (not False) comes back: the result type is Option Bool with none for None.
    Inside the try block the f-string for the stow command reads self.home_dir;
    when that attribute was never assigned, AttributeError is raised there,
    caught by the except clause, and False is returned. Otherwise the command
    runs and the returncode decides True or False. -/
def install_config (a : InstallerAttrs) (env : StowEnv) : Option Bool :=
  if !(ensureStowAvailable env) then none
  else
    match a.home_dir with
    | none => some false
    | some _ =>
      if env.stowCommandRaises then some false
      else if env.stowReturncode = 0 then some true
      else some false

/-- BaseInstaller.uninstall_config (base.py lines 95-97): the entire body is
    the pass statement, so it changes nothing and returns None. -/
def uninstall_config (_a : InstallerAttrs) (fs : ConfigFS) : ConfigFS × Option Bool :=
  (fs, none)

/-! ## Integration hooks (the methods each class defines) -/

/-- Whether the class's installer.py defines a setup_integration method.
    BaseInstaller itself defines none. -/
def definesSetupIntegration : InstallerClass → Bool
  | .TmuxInstaller | .StarshipInstaller | .PyenvInstaller
  | .LazyGitInstaller | .NushellInstaller | .GhosttyInstaller | .NeovimInstaller => true
  | _ => false

/-- Whether the class's installer.py defines an uninstall_integration method.
    StarshipInstaller defines setup_integration but not uninstall_integration. -/
def definesUninstallIntegration : InstallerClass → Bool
  | .TmuxInstaller | .PyenvInstaller
  | .LazyGitInstaller | .NushellInstaller | .GhosttyInstaller | .NeovimInstaller => true
  | _ => false

/-- Python attribute lookup for installer.setup_integration(): the call
    resolves on the class or any base; BaseInstaller defines no such method,
    so classes without their own definition raise AttributeError. The bodies
    of the overrides are abstracted to a plain return. -/
def callSetupIntegration (cls : InstallerClass) : Except PyExc Unit :=
  if definesSetupIntegration cls then .ok () else .error (.attributeError "setup_integration")

/-- Python attribute lookup for installer.uninstall_integration(), as above. -/
def callUninstallIntegration (cls : InstallerClass) : Except PyExc Unit :=
  if definesUninstallIntegration cls then .ok () else .error (.attributeError "uninstall_integration")

/-! ## Dependency and conflict validation (factory.py lines 242-307) -/

/-- The issues dict validate_dependencies_and_conflicts builds. -/
structure ValidationIssues where
  missing_dependencies : List String
  conflicts : List String
  warnings : List String
  deriving Repr, DecidableEq

/-- InstallerFactory.get_package_metadata: lookup raising ValueError when absent. -/
def get_package_metadata (reg : Registry) (pid : String) : Except PyExc PackageMetadata :=
  match reg.lookup pid with
  | none => .error (.valueError ("Package '" ++ pid ++ "' not found"))
  | some md => .ok md

/-- InstallerFactory.validate_dependencies_and_conflicts (factory.py lines
    281-307): each required id absent from installed_packages is recorded as
    missing, each conflicting id present is recorded as a conflict, and an
    unsupported platform appends a warning. The loops append in list order,
    which is the filter of each list. -/
def validate_dependencies_and_conflicts (reg : Registry) (pf : Platform)
    (pid : String) (installed_packages : List String) : Except PyExc ValidationIssues := do
  let md ← get_package_metadata reg pid
  .ok { missing_dependencies := md.requires.filter (fun d => !(installed_packages.contains d))
      , conflicts := md.conflicts.filter (fun c => installed_packages.contains c)
      , warnings :=
          if md.is_supported_on_current_platform pf then []
          else ["Package may not support current platform"] }

/-! ## Orchestration (sherpa.py lines 245-329) -/

/-- InstallerFactory.get_available_packages with the default platform filter:
    the sorted ids of the registry entries supported on the current platform. -/
def get_available_packages (reg : Registry) (pf : Platform) : List String :=
  sortIds ((reg.filter (fun e => e.2.is_supported_on_current_platform pf)).map Prod.fst)

/-- One lifecycle method invocation performed by the orchestrator. -/
inductive LifecycleEvent where
  | installSoftwareCall
  | installConfigCall
  | setupIntegrationCall
  | uninstallIntegrationCall
  | uninstallConfigCall
  | uninstallSoftwareCall
  deriving Repr, DecidableEq

/-- How the created installer behaves when the orchestrator calls into it:
    the detect query's answer, the value install_software returns, and which
    calls raise (a raised exception lands in the surrounding except clause,
    skipping the rest of the try block). -/
structure InstallerRun where
  is_software_installed : Bool
  install_software_result : Bool
  install_software_raises : Bool
  install_config_raises : Bool
  setup_integration_raises : Bool
  uninstall_integration_raises : Bool
  uninstall_config_raises : Bool
  uninstall_software_raises : Bool
  deriving Repr, DecidableEq

/-- The sequence of lifecycle calls handle_install (sherpa.py lines 245-302)
    performs on the installer. Unavailable package: return before the try
    block. Validation: abort on missing dependencies, then on conflicts;
    warnings only print. createOk abstracts the factory call succeeding (the
    created instance raising on creation lands in the except clause with no
    lifecycle call made). Then: install_software only when the detect query
    is false, with its returned value never inspected; install_config;
    setup_integration. A raising call is still an invocation, and ends the try
    block. -/
def handle_install_trace (reg : Registry) (pf : Platform) (pid : String)
    (createOk : Bool) (run : InstallerRun) : List LifecycleEvent :=
  if (get_available_packages reg pf).contains pid then
    match validate_dependencies_and_conflicts reg pf pid [] with
    | .error _ => []
    | .ok issues =>
      if !issues.missing_dependencies.isEmpty then []
      else if !issues.conflicts.isEmpty then []
      else if !createOk then []
      else
        if run.is_software_installed then
          LifecycleEvent.installConfigCall ::
            (if run.install_config_raises then []
             else [LifecycleEvent.setupIntegrationCall])
        else
          LifecycleEvent.installSoftwareCall ::
            (if run.install_software_raises then []
             else
               LifecycleEvent.installConfigCall ::
                 (if run.install_config_raises then []
                  else [LifecycleEvent.setupIntegrationCall]))
  else []

/-- The sequence of lifecycle calls handle_remove (sherpa.py lines 304-329)
    performs: availability gate, then uninstall_integration, uninstall_config,
    uninstall_software in that order, a raising call ending the try block. -/
def handle_remove_trace (reg : Registry) (pf : Platform) (pid : String)
    (createOk : Bool) (run : InstallerRun) : List LifecycleEvent :=
  if (get_available_packages reg pf).contains pid then
    if !createOk then []
    else
      LifecycleEvent.uninstallIntegrationCall ::
        (if run.uninstall_integration_raises then []
         else
           LifecycleEvent.uninstallConfigCall ::
             (if run.uninstall_config_raises then []
              else [LifecycleEvent.uninstallSoftwareCall]))
  else []

/-! ## Concrete fixtures used by witnesses and counterexamples -/

/-- A catalog shaped like the on-disk package tree: apt under core,
    pyenv with its PyenvInstaller (the entry the repository test loads). -/
def demoRegistry : Registry :=
  [ ("apt",
     { id := "apt", category := "core", installer_class := InstallerClass.AptInstaller
     , requires := [], conflicts := [], supports := none })
  , ("pyenv",
     { id := "pyenv", category := "runtimes", installer_class := InstallerClass.PyenvInstaller
     , requires := [], conflicts := [], supports := none }) ]

/-- Both validated package directories present on disk. -/
def goodDirs : DirsOnDisk := { packageDirExists := true, configDirExists := true }

/-- A linux x86_64 host. -/
def demoPlatform : Platform := { os := "linux", arch := "x86_64" }

/-- The attributes TmuxInstaller("tmux") builds on a valid package tree. -/
def tmuxAttrs : InstallerAttrs :=
  { package_name := "tmux"
  , package_dir := ["packages", "tmux"]
  , config_dir := ["packages", "tmux", "config"]
  , binary_name := some "tmux"
  , home_dir := none }

/-- A config subtree holding one file whose home target does not exist. -/
def demoConfigFS : ConfigFS :=
  { files := [[".config", "tmux", "tmux.conf"]]
  , targetExists := fun _ => false
  , targetIsSymlink := fun _ => false
  , targetResolvesToSource := fun _ => false }

/-- A config subtree holding one file whose home target is a symlink
    resolving back to the source file. -/
def linkedFS : ConfigFS :=
  { files := [[".config", "tmux", "tmux.conf"]]
  , targetExists := fun _ => true
  , targetIsSymlink := fun _ => true
  , targetResolvesToSource := fun _ => true }

/-- Installer attributes whose home_dir attribute is present, as the shared
    base logic expects it to be. -/
def homedAttrs : InstallerAttrs :=
  { package_name := "tmux"
  , package_dir := ["packages", "tmux"]
  , config_dir := ["packages", "tmux", "config"]
  , binary_name := some "tmux"
  , home_dir := some ["home", "user"] }

/-- A host where stow is already on PATH. -/
def stowReadyEnv : StowEnv :=
  { stowOnPath := true, packageManager := none, installCommandRaises := false
  , stowOnPathAfterInstall := false, stowCommandRaises := false, stowReturncode := 0 }

/-- A host with no stow and no package manager to install it with. -/
def noStowEnv : StowEnv :=
  { stowOnPath := false, packageManager := none, installCommandRaises := false
  , stowOnPathAfterInstall := false, stowCommandRaises := false, stowReturncode := 0 }

/-- An installer run where nothing is pre-installed, install_software reports
    failure, and no call raises. -/
def fullRun : InstallerRun :=
  { is_software_installed := false, install_software_result := false
  , install_software_raises := false, install_config_raises := false
  , setup_integration_raises := false, uninstall_integration_raises := false
  , uninstall_config_raises := false, uninstall_software_raises := false }

/-! ## Helper lemmas -/

/-- Any attributes BaseInstaller.__init__ produces carry no home_dir. -/
theorem baseInit_home_none (p : String) (dirs : DirsOnDisk) (a : InstallerAttrs)
    (h : baseInit p dirs = Except.ok a) : a.home_dir = none := by
  unfold baseInit at h
  split at h
  · simp at h
  · split at h
    · simp at h
    · injection h with h2
      subst h2
      rfl

/-- Arity-checked base construction also only ever yields home_dir-free attrs. -/
theorem baseInitArgs_home_none (args : List String) (dirs : DirsOnDisk) (a : InstallerAttrs)
    (h : baseInitArgs args dirs = Except.ok a) : a.home_dir = none := by
  match args, h with
  | [p], h => exact baseInit_home_none p dirs a h

/-- No constructor of any concrete class assigns home_dir either. -/
theorem constructInstaller_home_none (cls : InstallerClass) (args : List String)
    (dirs : DirsOnDisk) (a : InstallerAttrs)
    (h : constructInstaller cls args dirs = Except.ok a) : a.home_dir = none := by
  unfold constructInstaller at h
  cases hs : initStyle cls <;> rw [hs] at h <;> dsimp only at h
  case inherited => exact baseInitArgs_home_none args dirs a h
  case ownOneArg b =>
    cases args with
    | nil => simp at h
    | cons p rest =>
      cases rest with
      | cons q rest2 => simp at h
      | nil =>
        dsimp only at h
        cases hb : baseInitArgs [p] dirs with
        | error e =>
          rw [hb] at h
          simp [Except.map] at h
        | ok a0 =>
          rw [hb] at h
          simp only [Except.map, Except.ok.injEq] at h
          subst h
          simpa [setBinary] using baseInitArgs_home_none [p] dirs a0 hb
  case ownTwoArgForward b =>
    cases args with
    | nil => simp at h
    | cons p rest =>
      cases rest with
      | nil =>
        dsimp only at h
        cases hb : baseInitArgs [p, "None"] dirs with
        | error e =>
          rw [hb] at h
          simp [Except.map] at h
        | ok a0 =>
          rw [hb] at h
          simp only [Except.map, Except.ok.injEq] at h
          subst h
          simpa [setBinary] using baseInitArgs_home_none [p, "None"] dirs a0 hb
      | cons c rest2 =>
        cases rest2 with
        | cons q rest3 => simp at h
        | nil =>
          dsimp only at h
          cases hb : baseInitArgs [p, c] dirs with
          | error e =>
            rw [hb] at h
            simp [Except.map] at h
          | ok a0 =>
            rw [hb] at h
            simp only [Except.map, Except.ok.injEq] at h
            subst h
            simpa [setBinary] using baseInitArgs_home_none [p, c] dirs a0 hb

/-- A package id absent from the catalog keys never resolves by lookup. -/
theorem lookup_eq_none_of_not_mem (reg : Registry) (pid : String)
    (h : ¬ pid ∈ registryIds reg) : reg.lookup pid = none := by
  induction reg with
  | nil => rfl
  | cons e rest ih =>
    obtain ⟨k, v⟩ := e
    simp only [registryIds, List.map_cons, List.mem_cons] at h
    push_neg at h
    obtain ⟨h1, h2⟩ := h
    have hbeq : (pid == k) = false := beq_eq_false_iff_ne.mpr h1
    simp only [List.lookup, hbeq]
    exact ih (by simpa [registryIds] using h2)

/-! ## Claims -/

/-- C1: the claim says create_installer instantiates the located, conforming
    implementation with (packageId, category) and returns it rather than
    raising. The code violates this for every class in the tree:
    BaseInstaller.__init__ accepts only package_name, so the two-positional-
    argument instantiation (or the super forward of both arguments) raises
    TypeError, which create_installer re-raises as RuntimeError — shown here
    for all classes and evaluated at the catalog entry pyenv, the very entry
    the repository test expects to load successfully. -/
theorem claim_C1 :
    (∀ (cls : InstallerClass) (pid cat : String) (dirs : DirsOnDisk),
       ∃ m, constructInstaller cls [pid, cat] dirs = Except.error (PyExc.typeError m)) ∧
    create_installer demoRegistry goodDirs "pyenv" =
      Except.error (PyExc.runtimeError "Unexpected error creating installer for 'pyenv'") := by
  constructor
  · intro cls pid cat dirs
    cases cls <;> exact ⟨_, rfl⟩
  · rfl

/-- C2: no constructor ever assigns the home_dir attribute the shared base
    logic reads; hence with at least one file under the config subtree,
    is_config_installed (and so get_status) raises an uncaught AttributeError,
    and install_config, whenever the link tool is available, takes its except
    branch and returns False. -/
theorem claim_C2 :
    (∀ (cls : InstallerClass) (args : List String) (dirs : DirsOnDisk) (a : InstallerAttrs),
        constructInstaller cls args dirs = Except.ok a → a.home_dir = none) ∧
    (∀ (a : InstallerAttrs) (fs : ConfigFS), a.home_dir = none → fs.files ≠ [] →
        is_config_installed a fs = Except.error (PyExc.attributeError "home_dir") ∧
        ∀ sw : Bool, get_status a fs sw = Except.error (PyExc.attributeError "home_dir")) ∧
    (∀ (a : InstallerAttrs) (env : StowEnv), a.home_dir = none →
        ensureStowAvailable env = true → install_config a env = some false) := by
  refine ⟨constructInstaller_home_none, ?_, ?_⟩
  · intro a fs hhome hfiles
    have hcfg : is_config_installed a fs = Except.error (PyExc.attributeError "home_dir") := by
      unfold is_config_installed isConfigInstalledImpl
      cases hf : fs.files with
      | nil => exact absurd hf hfiles
      | cons rel rest =>
        unfold isConfigLoop
        rw [hhome]
    refine ⟨hcfg, fun sw => ?_⟩
    unfold get_status
    rw [hcfg]
    rfl
  · intro a env hhome hstow
    unfold install_config
    rw [hstow, hhome]
    rfl

/-- C2 witness: the attributes TmuxInstaller("tmux") builds carry no home_dir;
    on a one-file config subtree the config check raises AttributeError, and
    with stow on PATH install_config returns False. -/
theorem claim_C2_witness :
    constructInstaller InstallerClass.TmuxInstaller ["tmux"] goodDirs = Except.ok tmuxAttrs ∧
    tmuxAttrs.home_dir = none ∧
    demoConfigFS.files ≠ [] ∧
    is_config_installed tmuxAttrs demoConfigFS = Except.error (PyExc.attributeError "home_dir") ∧
    ensureStowAvailable stowReadyEnv = true ∧
    install_config tmuxAttrs stowReadyEnv = some false :=
  ⟨rfl,
   claim_C2.1 InstallerClass.TmuxInstaller ["tmux"] goodDirs tmuxAttrs rfl,
   by decide,
   (claim_C2.2.1 tmuxAttrs demoConfigFS rfl (by decide)).1,
   rfl,
   claim_C2.2.2 tmuxAttrs stowReadyEnv rfl rfl⟩

/-- C3: the claim (and the method's own docstring, remove symlinks) says
    uninstall_config after a successful install restores the linked check to
    false; the body is a pass statement, so it changes no filesystem state,
    returns None, and a linked config stays reported as linked. -/
theorem claim_C3 :
    (∀ (a : InstallerAttrs) (fs : ConfigFS), uninstall_config a fs = (fs, none)) ∧
    is_config_installed homedAttrs linkedFS = Except.ok true ∧
    is_config_installed homedAttrs (uninstall_config homedAttrs linkedFS).1 = Except.ok true :=
  ⟨fun _ _ => rfl, rfl, rfl⟩

/-- C4: the claim says every installer gets default no-op integration hooks;
    in the code BaseInstaller defines neither hook, so AptInstaller (like the
    other ten core classes, which override nothing) raises AttributeError on
    both calls, and StarshipInstaller raises on uninstall_integration. -/
theorem claim_C4 :
    callSetupIntegration InstallerClass.AptInstaller =
      Except.error (PyExc.attributeError "setup_integration") ∧
    callUninstallIntegration InstallerClass.AptInstaller =
      Except.error (PyExc.attributeError "uninstall_integration") ∧
    callUninstallIntegration InstallerClass.StarshipInstaller =
      Except.error (PyExc.attributeError "uninstall_integration") :=
  ⟨rfl, rfl, rfl⟩

/-- C5 counterexample: with no stow and no package manager the availability
    check fails and install_config executes a bare return, producing the
    Python value None — not the boolean False the claim states. -/
theorem claim_C5_counterexample :
    ensureStowAvailable noStowEnv = false ∧
    install_config tmuxAttrs noStowEnv = none ∧
    install_config tmuxAttrs noStowEnv ≠ some false :=
  ⟨rfl, rfl, by decide⟩

/-- C5 amended: for every installer, if the link tool cannot be obtained,
    install_config returns Python None (a falsy value, not the boolean
    False). -/
theorem claim_C5 (a : InstallerAttrs) (env : StowEnv)
    (h : ensureStowAvailable env = false) : install_config a env = none := by
  unfold install_config
  rw [h]
  rfl

/-- C5 witness: the amended claim evaluated on the stow-less host. -/
theorem claim_C5_witness :
    ensureStowAvailable noStowEnv = false ∧ install_config tmuxAttrs noStowEnv = none :=
  ⟨rfl, claim_C5 tmuxAttrs noStowEnv rfl⟩

/-- C6: for every package id not in the discovered catalog, create_installer
    fails with the ValueError whose message interpolates the comma-joined
    sorted catalog keys, and that sorted key list is a permutation of (so
    enumerates exactly) the ids currently in the catalog. -/
theorem claim_C6 (reg : Registry) (dirs : DirsOnDisk) (pid : String)
    (h : ¬ pid ∈ registryIds reg) :
    create_installer reg dirs pid =
      Except.error (PyExc.valueError
        ("Package '" ++ pid ++ "' not found. Available: " ++
         String.intercalate ", " (sortIds (registryIds reg)))) ∧
    (sortIds (registryIds reg)).Perm (registryIds reg) := by
  constructor
  · unfold create_installer
    rw [lookup_eq_none_of_not_mem reg pid h]
    rfl
  · exact List.perm_insertionSort _ _

/-- C6 witness: the unknown id zsh against the demo catalog, whose sorted ids
    apt, pyenv appear verbatim in the raised message. -/
theorem claim_C6_witness :
    (¬ "zsh" ∈ registryIds demoRegistry) ∧
    create_installer demoRegistry goodDirs "zsh" =
      Except.error (PyExc.valueError "Package 'zsh' not found. Available: apt, pyenv") :=
  ⟨by decide, by
    have h := (claim_C6 demoRegistry goodDirs "zsh" (by decide)).1
    have hs : ("Package '" ++ "zsh" ++ "' not found. Available: " ++
        String.intercalate ", " (sortIds (registryIds demoRegistry))) =
        "Package 'zsh' not found. Available: apt, pyenv" := by decide
    rw [h, hs]⟩

/-- C7: when the caller-supplied installed-set contains every required id and
    none of the conflicting ones, validation returns empty
    missing_dependencies and empty conflicts, and the result is a pure
    function of the metadata record and the installed-set: any catalog that
    resolves the id to the same metadata yields the same result. -/
theorem claim_C7 (reg : Registry) (pf : Platform) (pid : String) (md : PackageMetadata)
    (installed : List String)
    (hlook : reg.lookup pid = some md)
    (hdeps : ∀ d ∈ md.requires, d ∈ installed)
    (hconf : ∀ c ∈ md.conflicts, ¬ c ∈ installed) :
    ∃ issues : ValidationIssues,
      validate_dependencies_and_conflicts reg pf pid installed = Except.ok issues ∧
      issues.missing_dependencies = [] ∧
      issues.conflicts = [] ∧
      ∀ reg2 : Registry, reg2.lookup pid = some md →
        validate_dependencies_and_conflicts reg2 pf pid installed =
          validate_dependencies_and_conflicts reg pf pid installed := by
  have hval : validate_dependencies_and_conflicts reg pf pid installed =
      Except.ok
        { missing_dependencies := md.requires.filter (fun d => !(installed.contains d))
        , conflicts := md.conflicts.filter (fun c => installed.contains c)
        , warnings :=
            if md.is_supported_on_current_platform pf then []
            else ["Package may not support current platform"] } := by
    unfold validate_dependencies_and_conflicts get_package_metadata
    rw [hlook]
    rfl
  refine ⟨_, hval, ?_, ?_, ?_⟩
  · refine List.filter_eq_nil_iff.mpr ?_
    intro d hd
    have hmem : installed.contains d = true := List.elem_iff.mpr (hdeps d hd)
    simp [hmem]
    exact hdeps d hd
  · refine List.filter_eq_nil_iff.mpr ?_
    intro c hc
    simp [List.elem_iff, hconf c hc]
  · intro reg2 hlook2
    unfold validate_dependencies_and_conflicts get_package_metadata
    rw [hlook, hlook2]

/-- The lazygit metadata: requires git, conflicts with gitui. -/
def gitMeta : PackageMetadata :=
  { id := "lazygit", category := "git", installer_class := InstallerClass.LazyGitInstaller
  , requires := ["git"], conflicts := ["gitui"]
  , supports := some { os := ["linux", "macos"], arch := [] } }

/-- A catalog holding only lazygit. -/
def depRegistry : Registry := [("lazygit", gitMeta)]

/-- C7 witness: with git installed and gitui absent, validating lazygit
    reports no missing dependency and no conflict. -/
theorem claim_C7_witness :
    depRegistry.lookup "lazygit" = some gitMeta ∧
    (∀ d ∈ gitMeta.requires, d ∈ ["git", "starship"]) ∧
    (∀ c ∈ gitMeta.conflicts, ¬ c ∈ ["git", "starship"]) ∧
    ∃ issues : ValidationIssues,
      validate_dependencies_and_conflicts depRegistry demoPlatform "lazygit" ["git", "starship"] =
        Except.ok issues ∧
      issues.missing_dependencies = [] ∧
      issues.conflicts = [] ∧
      ∀ reg2 : Registry, reg2.lookup "lazygit" = some gitMeta →
        validate_dependencies_and_conflicts reg2 demoPlatform "lazygit" ["git", "starship"] =
          validate_dependencies_and_conflicts depRegistry demoPlatform "lazygit" ["git", "starship"] :=
  ⟨rfl, by decide, by decide,
   claim_C7 depRegistry demoPlatform "lazygit" gitMeta ["git", "starship"]
     rfl (by decide) (by decide)⟩

/-- C8: in the removal workflow the lifecycle calls are always an initial
    segment of uninstall_integration, uninstall_config, uninstall_software
    (so uninstall_software never runs before integration teardown), and when
    the package is available, the installer was constructed, and no teardown
    call raises, the trace is exactly that three-call order. -/
theorem claim_C8 :
    (∀ (reg : Registry) (pf : Platform) (pid : String) (createOk : Bool) (run : InstallerRun),
       handle_remove_trace reg pf pid createOk run ∈
         [([] : List LifecycleEvent),
          [LifecycleEvent.uninstallIntegrationCall],
          [LifecycleEvent.uninstallIntegrationCall, LifecycleEvent.uninstallConfigCall],
          [LifecycleEvent.uninstallIntegrationCall, LifecycleEvent.uninstallConfigCall,
           LifecycleEvent.uninstallSoftwareCall]]) ∧
    (∀ (reg : Registry) (pf : Platform) (pid : String) (run : InstallerRun),
       (get_available_packages reg pf).contains pid = true →
       run.uninstall_integration_raises = false →
       run.uninstall_config_raises = false →
       handle_remove_trace reg pf pid true run =
         [LifecycleEvent.uninstallIntegrationCall, LifecycleEvent.uninstallConfigCall,
          LifecycleEvent.uninstallSoftwareCall]) := by
  constructor
  · intro reg pf pid createOk run
    unfold handle_remove_trace
    cases h1 : (get_available_packages reg pf).contains pid <;>
      cases createOk <;>
        cases h2 : run.uninstall_integration_raises <;>
          cases h3 : run.uninstall_config_raises <;>
            decide
  · intro reg pf pid run h1 h2 h3
    unfold handle_remove_trace
    rw [h1, h2, h3]
    rfl

/-- C8 witness: removing the available package apt with a constructed
    installer and no raising teardown call yields exactly the three-phase
    order. -/
theorem claim_C8_witness :
    (get_available_packages demoRegistry demoPlatform).contains "apt" = true ∧
    handle_remove_trace demoRegistry demoPlatform "apt" true fullRun =
      [LifecycleEvent.uninstallIntegrationCall, LifecycleEvent.uninstallConfigCall,
       LifecycleEvent.uninstallSoftwareCall] :=
  ⟨by decide,
   claim_C8.2 demoRegistry demoPlatform "apt" fullRun (by decide) rfl rfl⟩

/-- C9: the install workflow never inspects the value install_software
    returns (the trace is invariant under it), and for an available package
    that passes validation and construction, with install_software reporting
    failure, install_config and setup_integration are still invoked after it. -/
theorem claim_C9 :
    (∀ (reg : Registry) (pf : Platform) (pid : String) (createOk : Bool)
       (run : InstallerRun) (b : Bool),
       handle_install_trace reg pf pid createOk { run with install_software_result := b } =
         handle_install_trace reg pf pid createOk run) ∧
    (∀ (reg : Registry) (pf : Platform) (pid : String) (run : InstallerRun)
       (issues : ValidationIssues),
       (get_available_packages reg pf).contains pid = true →
       validate_dependencies_and_conflicts reg pf pid [] = Except.ok issues →
       issues.missing_dependencies = [] →
       issues.conflicts = [] →
       run.is_software_installed = false →
       run.install_software_result = false →
       run.install_software_raises = false →
       run.install_config_raises = false →
       handle_install_trace reg pf pid true run =
         [LifecycleEvent.installSoftwareCall, LifecycleEvent.installConfigCall,
          LifecycleEvent.setupIntegrationCall]) := by
  constructor
  · intro reg pf pid createOk run b
    rcases run with ⟨f1, f2, f3, f4, f5, f6, f7, f8⟩
    rfl
  · intro reg pf pid run issues h1 hv hm hc hsw hres hraise1 hraise2
    unfold handle_install_trace
    rw [h1, hv]
    simp [hm, hc, hsw, hraise1, hraise2]

/-- C9 witness: installing apt (available, valid, constructed) with
    install_software reporting failure still performs install_config and
    setup_integration. -/
theorem claim_C9_witness :
    validate_dependencies_and_conflicts demoRegistry demoPlatform "apt" [] =
      Except.ok { missing_dependencies := [], conflicts := [], warnings := [] } ∧
    fullRun.install_software_result = false ∧
    handle_install_trace demoRegistry demoPlatform "apt" true fullRun =
      [LifecycleEvent.installSoftwareCall, LifecycleEvent.installConfigCall,
       LifecycleEvent.setupIntegrationCall] :=
  ⟨rfl, rfl,
   claim_C9.2 demoRegistry demoPlatform "apt" fullRun
     { missing_dependencies := [], conflicts := [], warnings := [] }
     (by decide) rfl rfl rfl rfl rfl rfl rfl⟩

/-- C10 counterexample: the claim says the normalization maps every machine
    string into the set with arm64 and x86_64, defaulting unrecognized values
    to x86_64; the dict lookup defaults to the key itself, so i686 maps to
    i686, which is in neither form. -/
theorem claim_C10_counterexample :
    archMapGet "i686" = "i686" ∧ ¬ archMapGet "i686" ∈ ["arm64", "x86_64"] := by
  constructor
  · decide
  · decide

/-- C10 amended: the normalization maps the recognized machine strings
    (arm64, aarch64, x86_64, amd64) into the set with arm64 and x86_64, and
    leaves every unrecognized value unchanged (the default is the input
    itself, not x86_64). -/
theorem claim_C10 (s : String) :
    (s ∈ ["arm64", "aarch64", "x86_64", "amd64"] → archMapGet s ∈ ["arm64", "x86_64"]) ∧
    (¬ s ∈ ["arm64", "aarch64", "x86_64", "amd64"] → archMapGet s = s) := by
  constructor
  · intro h
    simp only [List.mem_cons, List.not_mem_nil, or_false] at h
    rcases h with h | h | h | h <;> subst h <;> decide
  · intro h
    simp only [List.mem_cons, List.not_mem_nil, or_false] at h
    push_neg at h
    obtain ⟨h1, h2, h3, h4⟩ := h
    unfold archMapGet
    rw [if_neg h1, if_neg h2, if_neg h3, if_neg h4]

/-- C10 witness: aarch64 is recognized and normalizes to arm64; riscv64 is
    unrecognized and passes through unchanged. -/
theorem claim_C10_witness :
    ("aarch64" ∈ ["arm64", "aarch64", "x86_64", "amd64"] ∧
       archMapGet "aarch64" ∈ ["arm64", "x86_64"]) ∧
    (¬ "riscv64" ∈ ["arm64", "aarch64", "x86_64", "amd64"] ∧
       archMapGet "riscv64" = "riscv64") :=
  ⟨⟨by decide, (claim_C10 "aarch64").1 (by decide)⟩,
   ⟨by decide, (claim_C10 "riscv64").2 (by decide)⟩⟩

end Sherpa
